import Mathlib

/-!
Shallow embedding of the BMW CarData integration (api.py, auth.py,
coordinator.py, config_flow.py, mqtt_stream.py) and proofs about it.

Modelling conventions:
* Wall-clock timestamps (`time.time()`) are modelled as `Int` seconds; with
  integer-valued times Python's `int(...)` cast in the rate limiter is the
  identity, so it is elided.
* Python dicts keyed by strings are association lists with first-match
  lookup and replace-first/append-last assignment, matching dict semantics
  on duplicate-free key lists (which is all the code ever builds).
* JSON payloads are a `Json` inductive; `d.get(k)` on a key that is present
  with a null value and on an absent key both yield "None", which the
  definitions reproduce.
* Network effects are factored out: each modelled operation takes the
  server's response (status, parsed body) or an outcome environment as an
  explicit argument and returns the new client state / result.
-/

namespace BMW

/-- JSON values as delivered by `resp.json()` / `json.loads`. -/
inductive Json where
  | null
  | bool (b : Bool)
  | num (n : Int)
  | str (s : String)
  | arr (elems : List Json)
  | obj (fields : List (String × Json))
deriving Repr

/-- `m.get(k)` / `m[k]` lookup on a string-keyed Python dict, modelled as
first-match lookup on an association list. -/
def dictGet {α : Type} : List (String × α) → String → Option α
  | [], _ => none
  | p :: rest, k => if p.1 = k then some p.2 else dictGet rest k

/-- `m[k] = v` on a string-keyed Python dict: replace the first entry with
key `k`, or append a fresh entry at the end. -/
def dictSet {α : Type} : List (String × α) → String → α → List (String × α)
  | [], k, v => [(k, v)]
  | p :: rest, k, v => if p.1 = k then (k, v) :: rest else p :: dictSet rest k v

/-- Python `str(value)` on a parsed JSON scalar (the shapes the code feeds
through `str(...)`; containers are not exercised by any claim). -/
def pyStr : Json → String
  | .null => "None"
  | .bool true => "True"
  | .bool false => "False"
  | .num n => toString n
  | .str s => s
  | .arr _ => "<list>"
  | .obj _ => "<dict>"

/-- Python truthiness of a JSON value, as used by `payload.get("data") or x7b x7d`. -/
def pyTruthy : Json → Bool
  | .null => false
  | .bool b => b
  | .num n => decide (n ≠ 0)
  | .str s => decide (s ≠ "")
  | .arr [] => false
  | .arr (_ :: _) => true
  | .obj [] => false
  | .obj (_ :: _) => true

/-- Python `s or default` on strings: the default when `s` is empty. -/
def orDefault (s d : String) : String := if s = "" then d else s

/-! ## const.py -/

def RATE_LIMIT_MAX_CALLS : Nat := 50
def RATE_LIMIT_WINDOW : Int := 86400
def TOKEN_REFRESH_MARGIN : Int := 300

/-! ## api.py: data classes -/

/-- `VehicleBasicData` (api.py). -/
structure VehicleBasicData where
  vin : String
  brand : String
  model : String
  propulsion : String
  construction_year : Option Int := none
deriving Repr, DecidableEq

/-- `TelematicEntry` (api.py): one telemetric data point.  `unit` is
`data.get("unit")` (null when absent) and `timestamp` is
`data.get("timestamp", "")`, both stored without further inspection. -/
structure TelematicEntry where
  name : String
  value : String
  unit : Json := .null
  timestamp : Json := .str ""
deriving Repr

/-! ## api.py: rate limiter -/

/-- `BMWCarDataAPI._prune_call_log`: pop ledger entries strictly older than
`now - RATE_LIMIT_WINDOW` from the front. -/
def pruneCallLog (now : Int) (log : List Int) : List Int :=
  log.dropWhile (fun t => decide (t < now - RATE_LIMIT_WINDOW))

/-- `BMWCarDataAPI.remaining_calls`: prune, then `max(0, 50 - len(ledger))`. -/
def remainingCalls (now : Int) (log : List Int) : Int :=
  max 0 ((RATE_LIMIT_MAX_CALLS : Int) - ((pruneCallLog now log).length : Int))

/-- Errors surfaced by `BMWCarDataAPI._request`. -/
inductive RequestError where
  | rateLimitExceeded (resetEta : Int)
  | apiError (status : Nat) (message : String)
deriving Repr, DecidableEq

/-- `BMWCarDataAPI._check_rate_limit`: prune, and if the pruned ledger holds
`RATE_LIMIT_MAX_CALLS` or more timestamps raise `RateLimitExceeded` with
`reset_in = oldest + RATE_LIMIT_WINDOW - now`; otherwise succeed with the
pruned ledger. -/
def checkRateLimit (now : Int) (log : List Int) :
    Except RequestError (List Int) :=
  match pruneCallLog now log with
  | [] => .ok []
  | oldest :: rest =>
    if RATE_LIMIT_MAX_CALLS ≤ (oldest :: rest).length then
      .error (.rateLimitExceeded (oldest + RATE_LIMIT_WINDOW - now))
    else
      .ok (oldest :: rest)

/-- `BMWCarDataAPI._record_call`: append `now` to the ledger. -/
def recordCall (now : Int) (log : List Int) : List Int := log ++ [now]

/-- `BMWCarDataAPI._request`, with the server response factored out as
`(status, bodyText, body)` where `body` is the parsed JSON result (`none`
models an empty body).  Returns the result together with the ledger after
the call.  The call timestamp is recorded as soon as the response arrives,
before any status classification. -/
def request (now : Int) (log : List Int) (status : Nat) (bodyText : String)
    (body : Option Json) : Except RequestError (Option Json) × List Int :=
  match checkRateLimit now log with
  | .error e => (.error e, pruneCallLog now log)
  | .ok pruned =>
    let log1 := recordCall now pruned
    if status = 401 then
      (.error (.apiError 401 "Unauthorized — token may be expired"), log1)
    else if status = 429 then
      (.error (.apiError 429 "Rate limited by BMW API server"), log1)
    else if ¬ (200 ≤ status ∧ status < 300) then
      (.error (.apiError status (bodyText.take 500)), log1)
    else
      (.ok body, log1)

/-! ## api.py: vehicle discovery -/

/-- `BMWCarDataAPI.discover_vehicles`: the per-VIN loop.  `fetchBasic`
stands for `get_vehicle_basic_data`, returning either the parsed
`VehicleBasicData` or the status of the `APIError` it raised.  On success
the VIN from the mappings overwrites the parsed one; on `APIError` a
placeholder identity is substituted. -/
def discoverVehicles (fetchBasic : String → Except Nat VehicleBasicData) :
    List String → List VehicleBasicData
  | [] => []
  | vin :: rest =>
    (match fetchBasic vin with
     | .ok basic => { basic with vin := vin }
     | .error _ =>
        { vin := vin, brand := "BMW", model := "Unknown", propulsion := "",
          construction_year := none }) :: discoverVehicles fetchBasic rest

/-! ## auth.py -/

/-- `TokenResponse` (auth.py): token set from the token endpoint.
`token_time` is `time.time()` when the tokens were obtained. -/
structure TokenResponse where
  access_token : String
  refresh_token : String
  id_token : String
  expires_in : Int
  gcid : String
  token_time : Int
deriving Repr, DecidableEq

/-- `TokenResponse.expiry_timestamp`: absolute expiry time. -/
def expiryTimestamp (t : TokenResponse) : Int := t.token_time + t.expires_in

/-- The fields the token endpoint's JSON body may carry, each `none` when
the key is absent (`body.get(...)` then falls back to its default). -/
structure TokenBody where
  access_token : Option String := none
  refresh_token : Option String := none
  id_token : Option String := none
  expires_in : Option Int := none
  gcid : Option String := none
  error : Option String := none
  error_description : Option String := none
deriving Repr, DecidableEq

/-- Result of `BMWAuth.poll_for_token` for one server response.
`keyError` models the `KeyError` Python would raise when a 200 body lacks
a required field (`body["access_token"]` / `body["refresh_token"]`). -/
inductive PollTokenResult where
  | success (t : TokenResponse)
  | authorizationPending (msg : String)
  | slowDown (msg : String)
  | deviceCodeExpired (msg : String)
  | authError (msg : String)
  | keyError
deriving Repr, DecidableEq

/-- `BMWAuth.poll_for_token`: classify one token-endpoint response
`(status, body)` at wall-clock time `now`. -/
def pollForToken (now : Int) (status : Nat) (body : TokenBody) :
    PollTokenResult :=
  if status = 200 then
    match body.access_token, body.refresh_token with
    | some a, some r =>
      .success
        { access_token := a, refresh_token := r,
          id_token := body.id_token.getD "",
          expires_in := (body.expires_in).getD 3599,
          gcid := body.gcid.getD "", token_time := now }
    | _, _ => .keyError
  else
    let error := (body.error).getD ""
    let description := (body.error_description).getD ""
    if error = "authorization_pending" ∨ status = 403 then
      .authorizationPending (orDefault description "Waiting for user")
    else if error = "slow_down" then
      .slowDown (orDefault description "Slow down")
    else if status = 401 then
      .deviceCodeExpired (orDefault description "Device code expired")
    else
      .authError ("Token poll failed (" ++ toString status ++ "): "
        ++ error ++ " " ++ description)

/-- Result of `BMWAuth.refresh_tokens` for one server response.
`refreshFailed` is the `TokenRefreshFailed` exception; `keyError` models
the `KeyError` on a 200 body lacking `access_token`. -/
inductive RefreshResult where
  | ok (t : TokenResponse)
  | refreshFailed (status : Nat) (error : String)
  | keyError
deriving Repr, DecidableEq

/-- `BMWAuth.refresh_tokens`: exchange `refresh_token` given the server's
response `(status, body)` at wall-clock time `now`.  On 200 the new set
keeps the caller's refresh token when the body omits `refresh_token`. -/
def refreshTokens (now : Int) (refresh_token : String) (status : Nat)
    (body : TokenBody) : RefreshResult :=
  if status = 200 then
    match body.access_token with
    | some a =>
      .ok
        { access_token := a,
          refresh_token := (body.refresh_token).getD refresh_token,
          id_token := body.id_token.getD "",
          expires_in := (body.expires_in).getD 3599,
          gcid := body.gcid.getD "", token_time := now }
    | none => .keyError
  else
    .refreshFailed status ((body.error).getD "unknown")

/-! ## config_flow.py: the device-authorization polling loop -/

/-- The outcome of one `poll_for_token` call as seen by the loop in
`BMWCarDataConfigFlow._poll_for_authorization`: either a token set or one
of the auth exceptions. -/
inductive PollOutcome where
  | success (t : TokenResponse)
  | pending
  | slowDown
  | expired
  | authErr
deriving Repr, DecidableEq

/-- How `_poll_for_authorization` terminates. `outOfTrace` is a model
artifact: the supplied finite response trace ran out while the loop was
still under its deadline. -/
inductive LoopResult where
  | success (t : TokenResponse)
  | deviceCodeExpired
  | authError
  | outOfTrace
deriving Repr, DecidableEq

/-- `BMWCarDataConfigFlow._poll_for_authorization`: the caller-driven
polling loop.  Each iteration first checks the deadline, then sleeps
`interval` seconds (time advances by `interval`) and polls once, consuming
the next outcome of the trace.  `slow_down` replaces the interval with
`min(interval + 2, 10)`; `authorization_pending` retries; a token set
returns; `DeviceCodeExpired` and other auth errors re-raise; once the
deadline has passed the loop raises `DeviceCodeExpired`. -/
def pollForAuthorization (deadline : Int) :
    Int → Int → List PollOutcome → LoopResult
  | now, _, [] => if deadline ≤ now then .deviceCodeExpired else .outOfTrace
  | now, interval, r :: rest =>
    if deadline ≤ now then .deviceCodeExpired
    else
      match r with
      | .success t => .success t
      | .pending => pollForAuthorization deadline (now + interval) interval rest
      | .slowDown =>
          pollForAuthorization deadline (now + interval)
            (min (interval + 2) 10) rest
      | .expired => .deviceCodeExpired
      | .authErr => .authError

/-! ## coordinator.py -/

/-- `VehicleData` (api.py): aggregated per-vehicle state, telemetry keyed
by descriptor name. -/
structure VehicleData where
  basic : VehicleBasicData
  telemetry : List (String × TelematicEntry) := []
  rest_updated : Option Int := none
  mqtt_updated : Option Int := none
deriving Repr

/-- The coordinator's `self.data`: VIN → `VehicleData`. -/
abbrev CoordMap : Type := List (String × VehicleData)

/-- `BMWCarDataCoordinator._merge_rest_data`: merge REST telemetric entries
into the store; unknown VINs are ignored; each entry overwrites the slot
for its descriptor; `rest_updated` is set to `now`. -/
def mergeRestData (now : Int) (vin : String) (entries : List TelematicEntry)
    (data : CoordMap) : CoordMap :=
  match dictGet data vin with
  | none => data
  | some vehicle =>
    let telemetry := entries.foldl (fun t e => dictSet t e.name e)
      vehicle.telemetry
    dictSet data vin
      { vehicle with telemetry := telemetry, rest_updated := some now }

/-- What one `get_telematic_data` call does for a VIN, as seen by
`_fetch_telemetry`: the parsed entries, or one of the exceptions it can
raise. -/
inductive FetchOutcome where
  | ok (entries : List TelematicEntry)
  | rateLimited
  | apiError (status : Nat)
  | otherError
deriving Repr

/-- What `_fetch_telemetry` does to its caller: absorb (merged or merely
logged), re-raise `RateLimitExceeded`, or raise `ConfigEntryAuthFailed`. -/
inductive FetchSignal where
  | absorbed
  | rateLimit
  | authFailed
deriving Repr, DecidableEq

/-- `BMWCarDataCoordinator._fetch_telemetry` for a single VIN: success
merges, `RateLimitExceeded` re-raises, `APIError` with status 401 raises
`ConfigEntryAuthFailed`, any other `APIError` and any unexpected exception
is logged and absorbed. -/
def fetchTelemetry (now : Int) (vin : String) (outcome : FetchOutcome)
    (data : CoordMap) : FetchSignal × CoordMap :=
  match outcome with
  | .ok entries => (.absorbed, mergeRestData now vin entries data)
  | .rateLimited => (.rateLimit, data)
  | .apiError status =>
      if status = 401 then (.authFailed, data) else (.absorbed, data)
  | .otherError => (.absorbed, data)

/-- How one poll cycle's per-vehicle loop ends. -/
inductive UpdateResult where
  | ok (data : CoordMap)
  | configEntryAuthFailed
deriving Repr

/-- The per-vehicle loop of `BMWCarDataCoordinator._async_update_data`
(lines 145-156): iterate over the known VINs, skipping empty ones;
`RateLimitExceeded` breaks the loop (the current data is returned);
`ConfigEntryAuthFailed` propagates; everything else continues.  `env`
fixes the outcome each VIN's fetch would have this cycle. -/
def pollVehicles (now : Int) (env : String → FetchOutcome) :
    List String → CoordMap → UpdateResult
  | [], data => .ok data
  | vin :: rest, data =>
    if vin = "" then pollVehicles now env rest data
    else
      match fetchTelemetry now vin (env vin) data with
      | (.absorbed, d) => pollVehicles now env rest d
      | (.rateLimit, d) => .ok d
      | (.authFailed, _) => .configEntryAuthFailed

/-- `BMWCarDataCoordinator._ensure_valid_token`: return early while `now`
is strictly below `expiry - TOKEN_REFRESH_MARGIN`; otherwise apply the
refresh outcome (`refresh_tokens` result), turning `TokenRefreshFailed`
into `ConfigEntryAuthFailed` (`.error ()`). -/
def ensureValidToken (now : Int) (tokens : TokenResponse)
    (refreshOutcome : Except Unit TokenResponse) :
    Except Unit TokenResponse :=
  if now < expiryTimestamp tokens - TOKEN_REFRESH_MARGIN then .ok tokens
  else
    match refreshOutcome with
    | .ok t => .ok t
    | .error _ => .error ()

/-! ## coordinator.py + mqtt_stream.py: stream message handling -/

/-- One descriptor entry of an MQTT `data` dict, as built by
`_on_mqtt_message`: skip non-dict payloads, skip a missing or null
`value`, else build a `TelematicEntry` from `str(value)`,
`payload.get("unit")` and `payload.get("timestamp", "")`. -/
def parseStreamEntry (descriptor : String) (dp : Json) :
    Option TelematicEntry :=
  match dp with
  | .obj fields =>
    match dictGet fields "value" with
    | none => none
    | some .null => none
    | some v =>
      some
        { name := descriptor, value := pyStr v,
          unit := (dictGet fields "unit").getD .null,
          timestamp := (dictGet fields "timestamp").getD (.str "") }
  | _ => none

/-- `BMWCarDataCoordinator._on_mqtt_message`: handle one inbound stream
payload for the VIN extracted from the topic.  `none` models an exception
escaping the callback (e.g. the `AttributeError` from `payload.get` when
the payload is not a JSON object).  A payload whose VIN is unknown is
ignored; `payload.get("data") or` the empty dict is taken, and a non-dict
`data` logs a warning and returns without touching the store; otherwise
every descriptor with a non-null `value` is merged and `mqtt_updated` is
set to `now`. -/
def onMqttMessage (now : Int) (topicVin : String) (payload : Json)
    (data : CoordMap) : Option CoordMap :=
  match payload with
  | .obj fields =>
    match (dictGet fields "vin").getD (.str topicVin) with
    | .str msgVin =>
      match dictGet data msgVin with
      | none => some data
      | some vehicle =>
        let d := match dictGet fields "data" with
          | some j => if pyTruthy j then j else .obj []
          | none => .obj []
        match d with
        | .obj dfields =>
          let telemetry := dfields.foldl
            (fun t p =>
              match parseStreamEntry p.1 p.2 with
              | some e => dictSet t p.1 e
              | none => t)
            vehicle.telemetry
          some (dictSet data msgVin
            { vehicle with telemetry := telemetry, mqtt_updated := some now })
        | _ => some data
    | _ => some data
  | _ => none

/-- `BMWMQTTStream._handle_message` around the coordinator callback: any
exception the callback raises is caught and logged, leaving the store
unchanged.  The VIN has already been extracted from the topic. -/
def handleMessage (now : Int) (topicVin : String) (payload : Json)
    (data : CoordMap) : CoordMap :=
  match onMqttMessage now topicVin payload data with
  | some d => d
  | none => data

/-- Observable projection of a `VehicleData` without the REST last-update
stamp, used to state merge idempotence "except for the stored timestamp
field". -/
def eraseRestUpdated (v : VehicleData) : VehicleData :=
  { v with rest_updated := none }

/-! ## Helper lemmas -/

theorem dictGet_dictSet_self {α : Type} (m : List (String × α)) (k : String)
    (v : α) : dictGet (dictSet m k v) k = some v := by
  induction m with
  | nil => simp [dictSet, dictGet]
  | cons p rest ih =>
    by_cases h : p.1 = k
    · simp [dictSet, dictGet, h]
    · simp [dictSet, dictGet, h, ih]

theorem dictSet_dictSet_self {α : Type} (m : List (String × α)) (k : String)
    (v w : α) : dictSet (dictSet m k v) k w = dictSet m k w := by
  induction m with
  | nil => simp [dictSet]
  | cons p rest ih =>
    by_cases h : p.1 = k
    · simp [dictSet, h]
    · simp [dictSet, h, ih]

theorem map_dictSet {α β : Type} (f : α → β) (m : List (String × α))
    (k : String) (v : α) :
    (dictSet m k v).map (fun p => (p.1, f p.2))
      = dictSet (m.map (fun p => (p.1, f p.2))) k (f v) := by
  induction m with
  | nil => simp [dictSet]
  | cons p rest ih =>
    by_cases h : p.1 = k
    · simp [dictSet, h]
    · simp [dictSet, h, ih]

theorem mem_pruneCallLog_lb (now : Int) (log : List Int)
    (hsorted : List.Pairwise (fun a b => a ≤ b) log) :
    ∀ t ∈ pruneCallLog now log, now - RATE_LIMIT_WINDOW ≤ t := by
  induction log with
  | nil => intro t ht; simp [pruneCallLog] at ht
  | cons x rest ih =>
    intro t ht
    rw [List.pairwise_cons] at hsorted
    by_cases hx : x < now - RATE_LIMIT_WINDOW
    · have : pruneCallLog now (x :: rest) = pruneCallLog now rest := by
        simp [pruneCallLog, List.dropWhile, hx]
      rw [this] at ht
      exact ih hsorted.2 t ht
    · have : pruneCallLog now (x :: rest) = x :: rest := by
        simp [pruneCallLog, List.dropWhile, hx]
      rw [this] at ht
      rcases List.mem_cons.mp ht with h | h
      · omega
      · have := hsorted.1 t h
        omega

theorem mergeRestData_of_get (now : Int) (vin : String) (e : TelematicEntry)
    (data : CoordMap) (v : VehicleData) (h : dictGet data vin = some v) :
    mergeRestData now vin [e] data
      = dictSet data vin
          { v with telemetry := dictSet v.telemetry e.name e,
                   rest_updated := some now } := by
  unfold mergeRestData
  rw [h]
  rfl

theorem pollForAuthorization_all_pending (deadline : Int) :
    ∀ (responses : List PollOutcome) (now interval : Int),
      1 ≤ interval → (∀ r ∈ responses, r = PollOutcome.pending) →
      deadline - now ≤ (responses.length : Int) →
      pollForAuthorization deadline now interval responses
        = .deviceCodeExpired := by
  intro responses
  induction responses with
  | nil =>
    intro now interval _ _ hlen
    simp only [List.length_nil, Int.natCast_zero] at hlen
    unfold pollForAuthorization
    rw [if_pos (by omega)]
  | cons r rest ih =>
    intro now interval hi hall hlen
    have hr : r = PollOutcome.pending := hall r (by simp)
    subst hr
    by_cases hd : deadline ≤ now
    · unfold pollForAuthorization
      rw [if_pos hd]
    · unfold pollForAuthorization
      rw [if_neg hd]
      refine ih (now + interval) interval hi
        (fun x hx => hall x (List.mem_cons_of_mem _ hx)) ?_
      simp only [List.length_cons] at hlen
      push_cast at hlen ⊢
      omega

/-! ## Claim theorems -/

/-- C1: in every ledger state whose pruned ledger holds N ≤ 50 timestamps,
those timestamps lie within the trailing 86400-second window (given the
ledger's append-order invariant) and `remaining_calls` returns 50 − N; and
a request attempted when the pruned ledger holds 50 or more timestamps
returns `RateLimitExceeded` with reset ETA `oldest + 86400 − now` and
leaves the ledger at its pruned value — nothing is recorded, the call is
not performed, whatever response the server would have given. -/
theorem c1_rate_limit_budget (now : Int) (log : List Int)
    (hsorted : List.Pairwise (fun a b => a ≤ b) log) :
    ((pruneCallLog now log).length ≤ RATE_LIMIT_MAX_CALLS →
      (∀ t ∈ pruneCallLog now log, now - RATE_LIMIT_WINDOW ≤ t) ∧
      remainingCalls now log
        = (RATE_LIMIT_MAX_CALLS : Int) - ((pruneCallLog now log).length : Int)) ∧
    (∀ oldest rest, pruneCallLog now log = oldest :: rest →
      RATE_LIMIT_MAX_CALLS ≤ (oldest :: rest).length →
      checkRateLimit now log
          = .error (.rateLimitExceeded (oldest + RATE_LIMIT_WINDOW - now)) ∧
      ∀ status bodyText body,
        request now log status bodyText body
          = (.error (.rateLimitExceeded (oldest + RATE_LIMIT_WINDOW - now)),
             pruneCallLog now log)) := by
  constructor
  · intro hlen
    refine ⟨mem_pruneCallLog_lb now log hsorted, ?_⟩
    unfold remainingCalls
    have : ((pruneCallLog now log).length : Int) ≤ (RATE_LIMIT_MAX_CALLS : Int) := by
      exact_mod_cast hlen
    omega
  · intro oldest rest hp hge
    have hchk : checkRateLimit now log
        = .error (.rateLimitExceeded (oldest + RATE_LIMIT_WINDOW - now)) := by
      unfold checkRateLimit
      rw [hp]
      simp only [List.length_cons] at hge
      simp [hge]
    refine ⟨hchk, ?_⟩
    intro status bodyText body
    unfold request
    rw [hchk]

/-- Witness for C1 at concrete inputs: a three-entry sorted ledger with a
stale entry, and a saturated 50-entry ledger rejecting a request. -/
theorem c1_rate_limit_budget_witness :
    (remainingCalls 100000 [20000, 99000, 99500]
        = (RATE_LIMIT_MAX_CALLS : Int)
          - ((pruneCallLog 100000 [20000, 99000, 99500]).length : Int)) ∧
    (∀ status bodyText body,
      request 100 (List.replicate 50 (50 : Int)) status bodyText body
        = (.error (.rateLimitExceeded (50 + RATE_LIMIT_WINDOW - 100)),
           pruneCallLog 100 (List.replicate 50 (50 : Int)))) := by
  constructor
  · exact ((c1_rate_limit_budget 100000 [20000, 99000, 99500]
      (by decide)).1 (by decide)).2
  · exact ((c1_rate_limit_budget 100 (List.replicate 50 (50 : Int))
      (by decide)).2 50 (List.replicate 49 (50 : Int)) (by decide) (by decide)).2

/-- C3: the coordinator refreshes exactly when
`now ≥ token_time + expires_in − 300`: strictly below the threshold the
current token set is returned unchanged and the refresh outcome is never
consulted; at or above it the result is exactly the handling of the
refresh outcome. -/
theorem c3_refresh_margin (now : Int) (tok : TokenResponse)
    (r r' : Except Unit TokenResponse) :
    (now < tok.token_time + tok.expires_in - 300 →
       ensureValidToken now tok r = .ok tok ∧
       ensureValidToken now tok r = ensureValidToken now tok r') ∧
    (tok.token_time + tok.expires_in - 300 ≤ now →
       ensureValidToken now tok r
         = match r with | .ok t => .ok t | .error _ => .error ()) := by
  constructor
  · intro h
    have h' : now < expiryTimestamp tok - TOKEN_REFRESH_MARGIN := by
      unfold expiryTimestamp TOKEN_REFRESH_MARGIN; omega
    unfold ensureValidToken
    rw [if_pos h', if_pos h']
    exact ⟨rfl, rfl⟩
  · intro h
    have h' : ¬ now < expiryTimestamp tok - TOKEN_REFRESH_MARGIN := by
      unfold expiryTimestamp TOKEN_REFRESH_MARGIN; omega
    unfold ensureValidToken
    rw [if_neg h']

/-- Witness for C3: with `token_time = 0, expires_in = 3600`, no refresh at
`now = 3299` (one second before the margin) and refresh applied at
`now = 3300`. -/
theorem c3_refresh_margin_witness :
    (ensureValidToken 3299
        { access_token := "x", refresh_token := "r", id_token := "",
          expires_in := 3600, gcid := "", token_time := 0 }
        (.error ())
      = .ok { access_token := "x", refresh_token := "r", id_token := "",
              expires_in := 3600, gcid := "", token_time := 0 }) ∧
    (ensureValidToken 3300
        { access_token := "x", refresh_token := "r", id_token := "",
          expires_in := 3600, gcid := "", token_time := 0 }
        (.ok { access_token := "y", refresh_token := "r2", id_token := "",
               expires_in := 3600, gcid := "", token_time := 3300 })
      = .ok { access_token := "y", refresh_token := "r2", id_token := "",
              expires_in := 3600, gcid := "", token_time := 3300 }) := by
  constructor
  · exact ((c3_refresh_margin 3299
      { access_token := "x", refresh_token := "r", id_token := "",
        expires_in := 3600, gcid := "", token_time := 0 }
      (.error ()) (.error ())).1 (by decide)).1
  · exact (c3_refresh_margin 3300
      { access_token := "x", refresh_token := "r", id_token := "",
        expires_in := 3600, gcid := "", token_time := 0 }
      (.ok { access_token := "y", refresh_token := "r2", id_token := "",
             expires_in := 3600, gcid := "", token_time := 3300 })
      (.ok { access_token := "y", refresh_token := "r2", id_token := "",
             expires_in := 3600, gcid := "", token_time := 3300 })).2 (by decide)

/-- C7: every request that passes the rate-limit check records `now` into
the ledger, whatever the HTTP status — 2xx success, 401, 429 or any other
non-2xx error alike. -/
theorem c7_every_completion_recorded (now : Int) (log : List Int)
    (status : Nat) (bodyText : String) (body : Option Json)
    (pruned : List Int) (h : checkRateLimit now log = .ok pruned) :
    (request now log status bodyText body).2 = pruned ++ [now] := by
  simp only [request, h, recordCall]
  split
  · rfl
  · split
    · rfl
    · split
      · rfl
      · rfl

/-- Witness for C7: the ledger grows by `now` on a 200, a 401, a 429 and a
500 response alike. -/
theorem c7_every_completion_recorded_witness :
    ((request 100 [1, 2] 200 "" none).2 = [1, 2] ++ [100]) ∧
    ((request 100 [1, 2] 401 "" none).2 = [1, 2] ++ [100]) ∧
    ((request 100 [1, 2] 429 "" none).2 = [1, 2] ++ [100]) ∧
    ((request 100 [1, 2] 500 "oops" none).2 = [1, 2] ++ [100]) :=
  ⟨c7_every_completion_recorded 100 [1, 2] 200 "" none [1, 2] rfl,
   c7_every_completion_recorded 100 [1, 2] 401 "" none [1, 2] rfl,
   c7_every_completion_recorded 100 [1, 2] 429 "" none [1, 2] rfl,
   c7_every_completion_recorded 100 [1, 2] 500 "oops" none [1, 2] rfl⟩

/-- C10: a 200 refresh response whose body omits `refresh_token` yields a
token set that retains the caller's refresh token, and on every 200
response the access token and `token_time` come from the fresh response. -/
theorem c10_refresh_token_fallback (now : Int) (rt : String)
    (body : TokenBody) (a : String) (ha : body.access_token = some a) :
    (body.refresh_token = none →
       ∃ t, refreshTokens now rt 200 body = .ok t ∧
         t.refresh_token = rt ∧ t.access_token = a ∧ t.token_time = now) ∧
    (∃ t, refreshTokens now rt 200 body = .ok t ∧
       t.access_token = a ∧ t.token_time = now) := by
  constructor
  · intro hrt
    have hres : refreshTokens now rt 200 body
        = .ok { access_token := a, refresh_token := rt,
                id_token := body.id_token.getD "",
                expires_in := (body.expires_in).getD 3599,
                gcid := body.gcid.getD "", token_time := now } := by
      simp [refreshTokens, ha, hrt]
    exact ⟨_, hres, rfl, rfl, rfl⟩
  · have hres : refreshTokens now rt 200 body
        = .ok { access_token := a,
                refresh_token := (body.refresh_token).getD rt,
                id_token := body.id_token.getD "",
                expires_in := (body.expires_in).getD 3599,
                gcid := body.gcid.getD "", token_time := now } := by
      simp [refreshTokens, ha]
    exact ⟨_, hres, rfl, rfl⟩

/-- Witness for C10: a 200 body carrying only a fresh access token keeps
the caller's refresh token `"oldrt"`. -/
theorem c10_refresh_token_fallback_witness :
    ∃ t, refreshTokens 7 "oldrt" 200 { access_token := some "a" } = .ok t ∧
      t.refresh_token = "oldrt" ∧ t.access_token = "a" ∧ t.token_time = 7 :=
  (c10_refresh_token_fallback 7 "oldrt" { access_token := some "a" } "a"
    rfl).1 rfl

/-- C2: in one poll cycle's per-vehicle loop, empty VINs are skipped; a
`RateLimitExceeded` from one vehicle's fetch ends the cycle with the data
accumulated so far (remaining vehicles untouched); an HTTP 401 escalates
as `ConfigEntryAuthFailed`; any other `APIError` and any unexpected
exception is absorbed and the loop continues with the remaining
vehicles; a successful fetch merges and continues. -/
theorem c2_poll_cycle_error_policy (now : Int) (env : String → FetchOutcome)
    (vins : List String) (data : CoordMap) (vin : String) (hv : vin ≠ "") :
    (pollVehicles now env ("" :: vins) data = pollVehicles now env vins data) ∧
    (env vin = .rateLimited →
       pollVehicles now env (vin :: vins) data = .ok data) ∧
    (env vin = .apiError 401 →
       pollVehicles now env (vin :: vins) data = .configEntryAuthFailed) ∧
    (∀ s, s ≠ 401 → env vin = .apiError s →
       pollVehicles now env (vin :: vins) data
         = pollVehicles now env vins data) ∧
    (env vin = .otherError →
       pollVehicles now env (vin :: vins) data
         = pollVehicles now env vins data) ∧
    (∀ entries, env vin = .ok entries →
       pollVehicles now env (vin :: vins) data
         = pollVehicles now env vins (mergeRestData now vin entries data)) := by
  refine ⟨by simp [pollVehicles], ?_, ?_, ?_, ?_, ?_⟩
  · intro h
    simp [pollVehicles, fetchTelemetry, hv, h]
  · intro h
    simp [pollVehicles, fetchTelemetry, hv, h]
  · intro s hs h
    simp [pollVehicles, fetchTelemetry, hv, h, hs]
  · intro h
    simp [pollVehicles, fetchTelemetry, hv, h]
  · intro entries h
    simp [pollVehicles, fetchTelemetry, hv, h]

/-- Witness for C2 at a concrete cycle: VIN "V2" rate-limited stops the
loop, "V2" returning 401 escalates, a 500 on "V2" is absorbed, and the
empty VIN is skipped. -/
theorem c2_poll_cycle_error_policy_witness :
    (pollVehicles 9 (fun _ => FetchOutcome.ok []) ("" :: ["V3"]) []
       = pollVehicles 9 (fun _ => FetchOutcome.ok []) ["V3"] []) ∧
    (pollVehicles 9 (fun _ => FetchOutcome.rateLimited) ("V2" :: ["V3"]) []
       = .ok []) ∧
    (pollVehicles 9 (fun _ => FetchOutcome.apiError 401) ("V2" :: ["V3"]) []
       = .configEntryAuthFailed) ∧
    (pollVehicles 9 (fun _ => FetchOutcome.apiError 500) ("V2" :: ["V3"]) []
       = pollVehicles 9 (fun _ => FetchOutcome.apiError 500) ["V3"] []) :=
  ⟨(c2_poll_cycle_error_policy 9 (fun _ => FetchOutcome.ok []) ["V3"] []
      "V2" (by decide)).1,
   (c2_poll_cycle_error_policy 9 (fun _ => FetchOutcome.rateLimited) ["V3"] []
      "V2" (by decide)).2.1 rfl,
   (c2_poll_cycle_error_policy 9 (fun _ => FetchOutcome.apiError 401) ["V3"] []
      "V2" (by decide)).2.2.1 rfl,
   (c2_poll_cycle_error_policy 9 (fun _ => FetchOutcome.apiError 500) ["V3"] []
      "V2" (by decide)).2.2.2.1 500 (by decide) rfl⟩

/-- C4: one token-endpoint poll classifies every response in order: 200
with the required fields is terminal success with `token_time = now`;
`authorization_pending` (or the equivalent pending status 403) is the
non-terminal pending signal; `slow_down` is the slow-down signal; a 401
is terminal `DeviceCodeExpired`; everything else is terminal `AuthError`. -/
theorem c4_poll_classification (now : Int) (status : Nat) (body : TokenBody) :
    (∀ a r, body.access_token = some a → body.refresh_token = some r →
       ∃ t, pollForToken now 200 body = .success t ∧
         t.token_time = now ∧ t.access_token = a ∧ t.refresh_token = r) ∧
    (status ≠ 200 → ((body.error).getD "" = "authorization_pending" ∨ status = 403) →
       ∃ m, pollForToken now status body = .authorizationPending m) ∧
    (status ≠ 200 → status ≠ 403 → (body.error).getD "" = "slow_down" →
       ∃ m, pollForToken now status body = .slowDown m) ∧
    ((body.error).getD "" ≠ "authorization_pending" →
     (body.error).getD "" ≠ "slow_down" →
       ∃ m, pollForToken now 401 body = .deviceCodeExpired m) ∧
    (status ≠ 200 → status ≠ 403 → status ≠ 401 →
     (body.error).getD "" ≠ "authorization_pending" →
     (body.error).getD "" ≠ "slow_down" →
       ∃ m, pollForToken now status body = .authError m) := by
  refine ⟨?_, ?_, ?_, ?_, ?_⟩
  · intro a r ha hr
    have hres : pollForToken now 200 body
        = .success { access_token := a, refresh_token := r,
                     id_token := body.id_token.getD "",
                     expires_in := (body.expires_in).getD 3599,
                     gcid := body.gcid.getD "", token_time := now } := by
      simp [pollForToken, ha, hr]
    exact ⟨_, hres, rfl, rfl, rfl⟩
  · intro h200 hpend
    refine ⟨orDefault ((body.error_description).getD "") "Waiting for user", ?_⟩
    rcases hpend with he | h403
    · simp [pollForToken, h200, he]
    · subst h403
      simp [pollForToken]
  · intro h200 h403 he
    refine ⟨orDefault ((body.error_description).getD "") "Slow down", ?_⟩
    simp [pollForToken, h200, h403, he]
  · intro hp hs
    refine ⟨orDefault ((body.error_description).getD "") "Device code expired", ?_⟩
    simp [pollForToken, hp, hs]
  · intro h200 h403 h401 hp hs
    refine ⟨"Token poll failed (" ++ toString status ++ "): "
      ++ (body.error).getD "" ++ " " ++ (body.error_description).getD "", ?_⟩
    simp [pollForToken, h200, h403, h401, hp, hs]

/-- Witness for C4: concrete responses hitting each branch of the
classification. -/
theorem c4_poll_classification_witness :
    (∃ t, pollForToken 50 200
        { access_token := some "a", refresh_token := some "r" }
        = .success t ∧ t.token_time = 50 ∧ t.access_token = "a" ∧
          t.refresh_token = "r") ∧
    (∃ m, pollForToken 50 400 { error := some "authorization_pending" }
        = .authorizationPending m) ∧
    (∃ m, pollForToken 50 403 ({} : TokenBody) = .authorizationPending m) ∧
    (∃ m, pollForToken 50 400 { error := some "slow_down" } = .slowDown m) ∧
    (∃ m, pollForToken 50 401 ({} : TokenBody) = .deviceCodeExpired m) ∧
    (∃ m, pollForToken 50 500 { error := some "server_error" }
        = .authError m) :=
  ⟨(c4_poll_classification 50 200
      { access_token := some "a", refresh_token := some "r" }).1 "a" "r" rfl rfl,
   (c4_poll_classification 50 400
      { error := some "authorization_pending" }).2.1 (by decide) (Or.inl rfl),
   (c4_poll_classification 50 403 ({} : TokenBody)).2.1 (by decide)
      (Or.inr rfl),
   (c4_poll_classification 50 400 { error := some "slow_down" }).2.2.1
      (by decide) (by decide) rfl,
   (c4_poll_classification 50 401 ({} : TokenBody)).2.2.2.1
      (by decide) (by decide),
   (c4_poll_classification 50 500 { error := some "server_error" }).2.2.2.2
      (by decide) (by decide) (by decide) (by decide) (by decide)⟩

/-- C6: `discover_vehicles` returns exactly one identity per VIN of the
mapping list, in order, each carrying its VIN; a VIN whose basic-data
fetch raises `APIError` receives the placeholder identity
(brand "BMW", model "Unknown") instead of aborting the discovery. -/
theorem c6_discovery_placeholder_on_failure
    (fetch : String → Except Nat VehicleBasicData) (vins : List String) :
    (discoverVehicles fetch vins).length = vins.length ∧
    (discoverVehicles fetch vins).map VehicleBasicData.vin = vins ∧
    (∀ vin, vin ∈ vins → ∀ s, fetch vin = .error s →
       ({ vin := vin, brand := "BMW", model := "Unknown", propulsion := "",
          construction_year := none } : VehicleBasicData)
         ∈ discoverVehicles fetch vins) := by
  induction vins with
  | nil => exact ⟨rfl, rfl, by intro vin h; simp at h⟩
  | cons v rest ih =>
    refine ⟨?_, ?_, ?_⟩
    · simp only [discoverVehicles, List.length_cons, ih.1]
    · simp only [discoverVehicles, List.map_cons, ih.2.1]
      cases hf : fetch v <;> simp
    · intro vin hmem s hs
      rcases List.mem_cons.mp hmem with h | h
      · subst h
        simp only [discoverVehicles, hs]
        exact List.mem_cons_self _ _
      · exact List.mem_cons_of_mem _ (ih.2.2 vin h s hs)

/-- Witness for C6: three VINs where the middle fetch fails with a 500
still yield three identities, the middle one the placeholder. -/
theorem c6_discovery_placeholder_on_failure_witness :
    (discoverVehicles
        (fun v => if v = "B" then .error 500
          else .ok { vin := "", brand := "MINI", model := "Cooper",
                     propulsion := "e" })
        ["A", "B", "C"]).length = (["A", "B", "C"] : List String).length ∧
    ({ vin := "B", brand := "BMW", model := "Unknown", propulsion := "",
       construction_year := none } : VehicleBasicData)
      ∈ discoverVehicles
          (fun v => if v = "B" then .error 500
            else .ok { vin := "", brand := "MINI", model := "Cooper",
                       propulsion := "e" })
          ["A", "B", "C"] :=
  ⟨(c6_discovery_placeholder_on_failure
      (fun v => if v = "B" then .error 500
        else .ok { vin := "", brand := "MINI", model := "Cooper",
                   propulsion := "e" })
      ["A", "B", "C"]).1,
   (c6_discovery_placeholder_on_failure
      (fun v => if v = "B" then .error 500
        else .ok { vin := "", brand := "MINI", model := "Cooper",
                   propulsion := "e" })
      ["A", "B", "C"]).2.2 "B" (by decide) 500 rfl⟩

/-- C8: merging a telemetry entry overwrites whatever was stored under the
same descriptor — the stored entry is the new one verbatim, its timestamp
field carried through unexamined — and merging the same entry twice leaves
every vehicle's observable state (identity, telemetry map, stream stamp)
identical to merging it once, the stored REST last-update stamp apart. -/
theorem c8_merge_overwrite_idempotent (now now2 : Int) (vin : String)
    (e : TelematicEntry) (data : CoordMap) (v : VehicleData)
    (h : dictGet data vin = some v) :
    (∃ v1, dictGet (mergeRestData now vin [e] data) vin = some v1 ∧
       dictGet v1.telemetry e.name = some e) ∧
    ((mergeRestData now2 vin [e] (mergeRestData now vin [e] data)).map
        (fun p => (p.1, eraseRestUpdated p.2))
      = (mergeRestData now vin [e] data).map
        (fun p => (p.1, eraseRestUpdated p.2))) := by
  have hm1 := mergeRestData_of_get now vin e data v h
  have hg1 : dictGet (mergeRestData now vin [e] data) vin
      = some { v with telemetry := dictSet v.telemetry e.name e,
                      rest_updated := some now } := by
    rw [hm1]
    exact dictGet_dictSet_self _ _ _
  constructor
  · exact ⟨_, hg1, dictGet_dictSet_self _ _ _⟩
  · have hm2 := mergeRestData_of_get now2 vin e
      (mergeRestData now vin [e] data) _ hg1
    rw [dictSet_dictSet_self] at hm2
    rw [hm2, hm1, map_dictSet, map_dictSet, dictSet_dictSet_self]
    rfl

/-- Witness for C8 at a concrete store: vehicle "V1" already holds a "soc"
entry; merging a fresh "soc" entry overwrites it and a second identical
merge changes nothing but the REST stamp. -/
theorem c8_merge_overwrite_idempotent_witness :
    (∃ v1,
      dictGet
        (mergeRestData 5 "V1"
          [{ name := "soc", value := "55", unit := Json.str "%",
             timestamp := Json.str "t1" }]
          [("V1",
            { basic := { vin := "V1", brand := "BMW", model := "iX",
                         propulsion := "electric" },
              telemetry := [("soc",
                { name := "soc", value := "40", unit := Json.str "%",
                  timestamp := Json.str "t0" })] })])
        "V1" = some v1 ∧
      dictGet v1.telemetry "soc"
        = some { name := "soc", value := "55", unit := Json.str "%",
                 timestamp := Json.str "t1" }) ∧
    ((mergeRestData 6 "V1"
        [{ name := "soc", value := "55", unit := Json.str "%",
           timestamp := Json.str "t1" }]
        (mergeRestData 5 "V1"
          [{ name := "soc", value := "55", unit := Json.str "%",
             timestamp := Json.str "t1" }]
          [("V1",
            { basic := { vin := "V1", brand := "BMW", model := "iX",
                         propulsion := "electric" },
              telemetry := [("soc",
                { name := "soc", value := "40", unit := Json.str "%",
                  timestamp := Json.str "t0" })] })])).map
        (fun p => (p.1, eraseRestUpdated p.2))
      = (mergeRestData 5 "V1"
          [{ name := "soc", value := "55", unit := Json.str "%",
             timestamp := Json.str "t1" }]
          [("V1",
            { basic := { vin := "V1", brand := "BMW", model := "iX",
                         propulsion := "electric" },
              telemetry := [("soc",
                { name := "soc", value := "40", unit := Json.str "%",
                  timestamp := Json.str "t0" })] })]).map
          (fun p => (p.1, eraseRestUpdated p.2))) :=
  c8_merge_overwrite_idempotent 5 6 "V1"
    { name := "soc", value := "55", unit := Json.str "%",
      timestamp := Json.str "t1" }
    [("V1",
      { basic := { vin := "V1", brand := "BMW", model := "iX",
                   propulsion := "electric" },
        telemetry := [("soc",
          { name := "soc", value := "40", unit := Json.str "%",
            timestamp := Json.str "t0" })] })]
    { basic := { vin := "V1", brand := "BMW", model := "iX",
                 propulsion := "electric" },
      telemetry := [("soc",
        { name := "soc", value := "40", unit := Json.str "%",
          timestamp := Json.str "t0" })] }
    rfl

/-- C9: the device-authorization loop raises `DeviceCodeExpired` the moment
the absolute deadline has passed; under the deadline it sleeps the current
interval, returns the token set on the first successful poll, replaces the
interval with `min(interval + 2, 10)` after a slow-down signal, re-raises
a device-code-expired poll; and a run of pending polls long enough to
outlast the deadline always ends in `DeviceCodeExpired` — the loop never
runs past the deadline. -/
theorem c9_device_poll_loop (deadline now interval : Int)
    (t : TokenResponse) (rest responses : List PollOutcome) :
    (deadline ≤ now →
       pollForAuthorization deadline now interval responses
         = .deviceCodeExpired) ∧
    (now < deadline →
       pollForAuthorization deadline now interval (.success t :: rest)
         = .success t) ∧
    (now < deadline →
       pollForAuthorization deadline now interval (.slowDown :: rest)
         = pollForAuthorization deadline (now + interval)
             (min (interval + 2) 10) rest) ∧
    (now < deadline →
       pollForAuthorization deadline now interval (.pending :: rest)
         = pollForAuthorization deadline (now + interval) interval rest) ∧
    (now < deadline →
       pollForAuthorization deadline now interval (.expired :: rest)
         = .deviceCodeExpired) ∧
    (1 ≤ interval → (∀ r ∈ responses, r = PollOutcome.pending) →
       deadline - now ≤ (responses.length : Int) →
       pollForAuthorization deadline now interval responses
         = .deviceCodeExpired) := by
  refine ⟨?_, ?_, ?_, ?_, ?_,
    pollForAuthorization_all_pending deadline responses now interval⟩
  · intro h
    cases responses with
    | nil =>
      simp only [pollForAuthorization]
      rw [if_pos h]
    | cons r rs =>
      simp only [pollForAuthorization]
      rw [if_pos h]
  · intro h
    simp only [pollForAuthorization]
    rw [if_neg (by omega)]
  · intro h
    simp only [pollForAuthorization]
    rw [if_neg (by omega)]
  · intro h
    simp only [pollForAuthorization]
    rw [if_neg (by omega)]
  · intro h
    simp only [pollForAuthorization]
    rw [if_neg (by omega)]

/-- Witness for C9 at concrete runs: expiry exactly at the deadline, a
first-poll success, the slow-down interval update 5 → 7, and three pending
polls of a 3-second budget ending in `DeviceCodeExpired`. -/
theorem c9_device_poll_loop_witness :
    (pollForAuthorization 300 300 5 [PollOutcome.pending]
       = .deviceCodeExpired) ∧
    (pollForAuthorization 300 0 5
        [PollOutcome.success
          { access_token := "a", refresh_token := "r", id_token := "",
            expires_in := 3599, gcid := "", token_time := 0 }]
       = .success
          { access_token := "a", refresh_token := "r", id_token := "",
            expires_in := 3599, gcid := "", token_time := 0 }) ∧
    (pollForAuthorization 300 0 5 [PollOutcome.slowDown]
       = pollForAuthorization 300 (0 + 5) (min (5 + 2) 10) []) ∧
    (pollForAuthorization 3 0 1
        [PollOutcome.pending, PollOutcome.pending, PollOutcome.pending]
       = .deviceCodeExpired) :=
  ⟨(c9_device_poll_loop 300 300 5
      { access_token := "a", refresh_token := "r", id_token := "",
        expires_in := 3599, gcid := "", token_time := 0 }
      [] [PollOutcome.pending]).1 (by decide),
   (c9_device_poll_loop 300 0 5
      { access_token := "a", refresh_token := "r", id_token := "",
        expires_in := 3599, gcid := "", token_time := 0 }
      [] []).2.1 (by decide),
   (c9_device_poll_loop 300 0 5
      { access_token := "a", refresh_token := "r", id_token := "",
        expires_in := 3599, gcid := "", token_time := 0 }
      [] []).2.2.1 (by decide),
   (c9_device_poll_loop 3 0 1
      { access_token := "a", refresh_token := "r", id_token := "",
        expires_in := 3599, gcid := "", token_time := 0 }
      [] [PollOutcome.pending, PollOutcome.pending, PollOutcome.pending]
      ).2.2.2.2.2 (by decide) (by decide) (by decide)⟩

/-- A store with one known vehicle "V1" and no telemetry, used to exhibit
the stream handler's behaviour on a flat-list payload. -/
def c5State : CoordMap :=
  [("V1", { basic := { vin := "V1", brand := "BMW", model := "iX",
                       propulsion := "electric" } })]

/-- A flat list of telemetry entries — one of the wire shapes the spec says
the handler must accept — carrying a non-null value for "soc". -/
def c5FlatPayload : Json :=
  .arr [.obj [("name", .str "soc"), ("value", .str "55"),
              ("unit", .str "%"), ("timestamp", .str "t1")]]

/-- Counterexample to C5 as stated: a flat-list payload for the known
vehicle "V1" carrying a non-null "soc" value is not normalized or merged —
the callback raises (`payload.get` on a list), the stream handler absorbs
the exception, and the store is returned unchanged: no telemetry entry and
no stream stamp. -/
theorem c5_counterexample :
    onMqttMessage 10 "V1" c5FlatPayload c5State = none ∧
    handleMessage 10 "V1" c5FlatPayload c5State = c5State ∧
    (handleMessage 10 "V1" c5FlatPayload c5State).map
        (fun p => (p.1, p.2.telemetry.map Prod.fst, p.2.mqtt_updated))
      = [("V1", [], none)] :=
  ⟨rfl, rfl, rfl⟩

/-- C5 as amended: the message handler accepts only the nested
`vin`/`data` object shape, merging each descriptor whose value is non-null
into the reported vehicle's state and silently dropping entries whose
value is absent or null; a flat-list payload raises inside the callback
and the stream handler absorbs the exception, leaving the store
unchanged. -/
theorem c5_stream_payload_shapes (now : Int) (topicVin : String)
    (data : CoordMap) (veh : VehicleData) (desc : String) (dp : Json)
    (elems : List Json) (h : dictGet data topicVin = some veh) :
    (∀ e, parseStreamEntry desc dp = some e →
       onMqttMessage now topicVin
           (.obj [("vin", .str topicVin), ("data", .obj [(desc, dp)])]) data
         = some (dictSet data topicVin
             { veh with telemetry := dictSet veh.telemetry desc e,
                        mqtt_updated := some now })) ∧
    (parseStreamEntry desc dp = none →
       onMqttMessage now topicVin
           (.obj [("vin", .str topicVin), ("data", .obj [(desc, dp)])]) data
         = some (dictSet data topicVin
             { veh with mqtt_updated := some now })) ∧
    (onMqttMessage now topicVin (.arr elems) data = none ∧
     handleMessage now topicVin (.arr elems) data = data) := by
  refine ⟨?_, ?_, rfl, rfl⟩
  · intro e hpe
    simp [onMqttMessage, dictGet, h, hpe, pyTruthy]
  · intro hpe
    simp [onMqttMessage, dictGet, h, hpe, pyTruthy]

/-- Witness for the amended C5: a nested payload with a non-null "soc"
value merges it for "V1", and one with a null value drops it while still
stamping the stream update. -/
theorem c5_stream_payload_shapes_witness :
    (onMqttMessage 10 "V1"
        (.obj [("vin", .str "V1"),
               ("data", .obj [("soc",
                 .obj [("value", .str "55"), ("unit", .str "%"),
                       ("timestamp", .str "t1")])])])
        c5State
      = some (dictSet c5State "V1"
          { basic := { vin := "V1", brand := "BMW", model := "iX",
                       propulsion := "electric" },
            telemetry := dictSet []
              "soc" { name := "soc", value := "55", unit := Json.str "%",
                      timestamp := Json.str "t1" },
            mqtt_updated := some 10 })) ∧
    (onMqttMessage 10 "V1"
        (.obj [("vin", .str "V1"),
               ("data", .obj [("soc", .obj [("value", .null)])])])
        c5State
      = some (dictSet c5State "V1"
          { basic := { vin := "V1", brand := "BMW", model := "iX",
                       propulsion := "electric" },
            mqtt_updated := some 10 })) ∧
    onMqttMessage 10 "V1" c5FlatPayload c5State = none ∧
    handleMessage 10 "V1" c5FlatPayload c5State = c5State :=
  ⟨(c5_stream_payload_shapes 10 "V1" c5State
      { basic := { vin := "V1", brand := "BMW", model := "iX",
                   propulsion := "electric" } }
      "soc" (.obj [("value", .str "55"), ("unit", .str "%"),
                   ("timestamp", .str "t1")])
      [] rfl).1
      { name := "soc", value := "55", unit := Json.str "%",
        timestamp := Json.str "t1" } rfl,
   (c5_stream_payload_shapes 10 "V1" c5State
      { basic := { vin := "V1", brand := "BMW", model := "iX",
                   propulsion := "electric" } }
      "soc" (.obj [("value", .null)]) [] rfl).2.1 rfl,
   (c5_stream_payload_shapes 10 "V1" c5State
      { basic := { vin := "V1", brand := "BMW", model := "iX",
                   propulsion := "electric" } }
      "soc" (.obj [("value", .null)])
      [.obj [("name", .str "soc"), ("value", .str "55"),
             ("unit", .str "%"), ("timestamp", .str "t1")]] rfl).2.2.1,
   (c5_stream_payload_shapes 10 "V1" c5State
      { basic := { vin := "V1", brand := "BMW", model := "iX",
                   propulsion := "electric" } }
      "soc" (.obj [("value", .null)])
      [.obj [("name", .str "soc"), ("value", .str "55"),
             ("unit", .str "%"), ("timestamp", .str "t1")]] rfl).2.2.2⟩

end BMW
